import Mathlib

/-!
Verification of `streamlit_constellation_map.py` (Constellation-Playground).

The repository is a single-file Streamlit app wrapping two third-party HTTP
services.  Each helper reacting to an HTTP response is embedded as a pure
Lean function over a structured model of the response; the possibility that
the underlying `requests` call itself raises (network error) is made explicit
with `Except`, since several claims are about what is and is not caught.
Floats are modelled as `Rat`: no claim depends on floating-point rounding.
-/

namespace Constellation

/-- A parsed HTTP response: the status code and the decoded JSON body.
Mirrors the pair (`res.status_code`, `res.json()`) used throughout the app. -/
structure HttpResp (α : Type) where
  status_code : Nat
  body : α
  deriving Repr, DecidableEq

/-- A network-level failure: `requests.get` / `requests.post` raising before
any response is available (timeout, DNS failure, connection refused). -/
structure NetErr where
  msg : String
  deriving Repr, DecidableEq

/-! ## Position Table Transformer (Planetary Positions tab, lines 129–150) -/

/-- One cell of a positions-table row: `row["cells"][i]` with its nested
date / distance / horizontal-coordinate fields (lines 133–139). -/
structure PosCell where
  date : String
  dist_au : Rat
  dist_km : Rat
  altitude_deg : Rat
  azimuth_deg : Rat
  deriving Repr, DecidableEq

/-- One row of `pos_data["data"]["table"]["rows"]`: the body entry name and
the sequence of time cells. -/
structure PosRow where
  entry_name : String
  cells : List PosCell
  deriving Repr, DecidableEq

/-- One record appended to `planet_data` (lines 140–147). -/
structure PlanetRecord where
  name : String
  date : String
  dist_au : Rat
  dist_km : Rat
  altitude_deg : Rat
  azimuth_deg : Rat
  deriving Repr, DecidableEq

/-- The loop body for one row (lines 131–147): `cells = row["cells"][0]`
takes the first cell; an empty cell list makes the subscript raise
(`none` here, swallowed by the surrounding `try`). The name comes from
`row["entry"]["name"]`, every other field from that first cell. -/
def extract_row (row : PosRow) : Option PlanetRecord :=
  match row.cells with
  | [] => none
  | c :: _ =>
      some { name := row.entry_name
             date := c.date
             dist_au := c.dist_au
             dist_km := c.dist_km
             altitude_deg := c.altitude_deg
             azimuth_deg := c.azimuth_deg }

/-- The whole extraction loop (lines 129–147): rows are processed in order,
each appending one record, and a failing subscript aborts the whole
computation (the surrounding `try` catches it). -/
def transform_positions : List PosRow → Option (List PlanetRecord)
  | [] => some []
  | row :: rest =>
      (extract_row row).bind fun r =>
        (transform_positions rest).map fun rs => r :: rs

/-! ## Relative-distance derivation (lines 172–174)

```
subject_au = df.loc[df["name"] == subject, "dist_au"].iloc[0]
df["relative_au"] = (df["dist_au"] - subject_au).abs()
df.loc[df["name"] == subject, "relative_au"] = 0
```
-/

/-- `df.loc[df["name"] == subject, "dist_au"].iloc[0]` (line 172): the
`dist_au` of the first row whose name is `subject`; the subscript raises if
no row matches. -/
def subject_au (df : List PlanetRecord) (subject : String) : Option Rat :=
  (df.find? (fun r => r.name = subject)).map (·.dist_au)

/-- `(df["dist_au"] - subject_au).abs()` (line 173): the elementwise
absolute difference column. -/
def abs_diff_col (df : List PlanetRecord) (c : Rat) : List Rat :=
  df.map (fun r => |r.dist_au - c|)

/-- `df.loc[df["name"] == subject, "relative_au"] = 0` (line 174): overwrite
the column entries of every row named `subject` with exactly 0. -/
def overwrite_center (df : List PlanetRecord) (subject : String)
    (col : List Rat) : List Rat :=
  (df.zip col).map (fun p => if p.1.name = subject then 0 else p.2)

/-- Lines 172–174 composed: the derived `relative_au` column, `none` when
the chosen subject is absent from the table (the `iloc[0]` subscript would
raise). -/
def relative_au (df : List PlanetRecord) (subject : String) :
    Option (List Rat) :=
  (subject_au df subject).map (fun c => overwrite_center df subject (abs_diff_col df c))

/-! ## Moon-phase payload construction (lines 362–389) -/

/-- The `style` sub-object of `mp_payload` (lines 373–378); `backgroundColor`
is merged in only under `mp_backgroundStyle == "solid"` (line 377). -/
structure MpStyle where
  moonStyle : String
  backgroundStyle : String
  backgroundColor : Option String
  deriving Repr, DecidableEq

/-- The observer sub-object shared by the payloads. -/
structure Observer where
  latitude : Rat
  longitude : Rat
  date : String
  deriving Repr, DecidableEq

/-- The `view` sub-object of `mp_payload` (lines 384–388). -/
structure MpView where
  type : String
  orientation : String
  deriving Repr, DecidableEq

/-- The full `mp_payload` dict (lines 371–389). -/
structure MpPayload where
  format : String
  style : MpStyle
  observer : Observer
  view : MpView
  deriving Repr, DecidableEq

/-- Lines 365–368: the color picker only exists when the background style is
solid; otherwise `mp_backgroundColor = None`. -/
def mp_backgroundColor (backgroundStyle : String) (picked : String) :
    Option String :=
  if backgroundStyle = "solid" then some picked else none

/-- Building `mp_payload` (lines 371–389) from the widget values.  The
conditional dict-merge on line 377 inserts `backgroundColor` exactly when
`mp_backgroundStyle == "solid"`. -/
def build_mp_payload (format moonStyle backgroundStyle picked : String)
    (obs : Observer) (orientation : String) : MpPayload :=
  { format := format
    style :=
      { moonStyle := moonStyle
        backgroundStyle := backgroundStyle
        backgroundColor :=
          if backgroundStyle = "solid"
          then mp_backgroundColor backgroundStyle picked
          else none }
    observer := obs
    view := { type := "portrait-simple", orientation := orientation } }

/-! ## Google Places helpers (lines 29–74) and geocode fallback (278–290)

Each helper issues one `requests.get` with no surrounding `try`, so a
network-level exception from the call itself propagates to the caller; the
call is therefore modelled as an `Except NetErr (HttpResp _)` argument and
the helpers as functions into `Except NetErr _`. -/

/-- One element of `data["predictions"]`. -/
structure Prediction where
  description : String
  place_id : String
  deriving Repr, DecidableEq

/-- The decoded autocomplete body: `data.get("status")` is a safe lookup
(`none` models an absent key), while `data["predictions"]` is a raising
subscript, so the key's possible absence is kept (`none` = key missing). -/
structure AutoBody where
  status : Option String
  predictions : Option (List Prediction)
  deriving Repr, DecidableEq

/-- A Python exception escaping one of the Google helpers: either the
`requests.get` call raised, or a raising dict subscript missed its key. -/
inductive PyErr where
  | net (e : NetErr)
  | keyError (key : String)
  deriving Repr, DecidableEq

/-- `get_place_suggestions` (lines 29–52).  Empty input returns `[]` before
any call is made; a non-200 status or a non-"OK" provider status falls
through to `return suggestions` with the list still empty; on 200/"OK" the
loop appends one `{description, place_id}` dict per prediction in order.
The un-guarded `requests.get` (line 42) and the raising subscript
`data["predictions"]` (line 47) propagate as errors. -/
def get_place_suggestions (call : Except NetErr (HttpResp AutoBody))
    (user_input : String) : Except PyErr (List (String × String)) :=
  if user_input = "" then .ok []
  else
    match call with
    | .error e => .error (.net e)
    | .ok res =>
        if res.status_code = 200 then
          if res.body.status = some "OK" then
            match res.body.predictions with
            | none => .error (.keyError "predictions")
            | some ps => .ok (ps.map (fun p => (p.description, p.place_id)))
          else .ok []
        else .ok []

/-- `data['result']['geometry']['location']` of a place-details body. -/
structure DetailsLocation where
  lat : Rat
  lng : Rat
  deriving Repr, DecidableEq

/-- The decoded place-details body (only the fields the code reads). -/
structure DetailsBody where
  status : Option String
  location : DetailsLocation
  deriving Repr, DecidableEq

/-- The user-visible signal emitted through `st.error` by
`get_place_details`, or no signal on the success path. -/
inductive DetailsSignal where
  | httpError (status_code : Nat)
  | placeDetailsError (status : Option String)
  | noSignal
  deriving Repr, DecidableEq

/-- `get_place_details` (lines 54–74): on 200/"OK" it returns the location
pair; on 200 with any other provider status it shows
`Place details error: …` and falls through to `return None, None`; on a
non-200 status it shows `HTTP error: …` and returns `None, None`.
The result is the returned pair together with the emitted signal. -/
def get_place_details (res : HttpResp DetailsBody) :
    (Option Rat × Option Rat) × DetailsSignal :=
  if res.status_code = 200 then
    if res.body.status = some "OK" then
      ((some res.body.location.lat, some res.body.location.lng), .noSignal)
    else
      ((none, none), .placeDetailsError res.body.status)
  else
    ((none, none), .httpError res.status_code)

/-- One element of `data["results"]` of a geocode body, reduced to the
`geometry.location` fields the code reads. -/
structure GeoResult where
  lat : Rat
  lng : Rat
  deriving Repr, DecidableEq

/-- The decoded geocode body: `data["status"]` is a raising subscript
(`none` = key missing) and `data["results"]` is read with `.get`-like
truthiness only after the status check, so it is kept as a plain list. -/
structure GeoBody where
  status : Option String
  results : List GeoResult
  deriving Repr, DecidableEq

/-- `get_lati_longi` (lines 278–290), the geocode fallback.  Defined inline
in the submit handler; the `requests.get` on line 284 is not wrapped in any
`try`, so a network exception propagates.  On a 200 response with
`data["status"] == "OK"` and a truthy (non-empty) `data["results"]` it
returns the first result's `geometry.location`; every other response shape
reaches `return 0.0, 0.0`. -/
def get_lati_longi (call : Except NetErr (HttpResp GeoBody)) :
    Except PyErr (Rat × Rat) :=
  match call with
  | .error e => .error (.net e)
  | .ok res =>
      if res.status_code = 200 then
        match res.body.status with
        | none => .error (.keyError "status")
        | some s =>
            if s = "OK" ∧ res.body.results ≠ [] then
              match res.body.results with
              | [] => .ok (0, 0)
              | r :: _ => .ok (r.lat, r.lng)
            else .ok (0, 0)
      else .ok (0, 0)

/-! ## Astronomy image handlers (star chart 334–344, moon phase 391–402)

Both handlers call `res.raise_for_status()`, which (per the `requests`
library) raises `HTTPError` exactly when `400 <= status_code < 600`; a 1xx
or 3xx final status is not an error for it and falls through to body
parsing. -/

/-- `raise_for_status` raises for this response. -/
def raises_for_status (status_code : Nat) : Prop :=
  400 ≤ status_code ∧ status_code < 600

instance (s : Nat) : Decidable (raises_for_status s) := by
  unfold raises_for_status; infer_instance

/-- A decoded astronomy body: the optional `data` object and, inside it, the
optional `imageUrl` field (`none` = key absent). -/
structure AstroBody where
  data_field : Option (Option String)
  deriving Repr, DecidableEq

/-- `res.json()['data']['imageUrl']` of an `AstroBody`: `some url` when both
keys are present. -/
def AstroBody.imageUrl (b : AstroBody) : Option String :=
  match b.data_field with
  | none => none
  | some u => u

/-- How the star-chart handler (lines 334–344) ends: the `except` branch
shows an error (from `raise_for_status` carrying the HTTP status, or from a
`KeyError` on a missing `data`/`imageUrl` key), or the success branch shows
the image at the extracted URL. -/
inductive ChartOutcome where
  | httpFailure (status_code : Nat)
  | malformedResponse
  | image (url : String)
  deriving Repr, DecidableEq

/-- The Generate Star Map handler (lines 334–344) from the moment the
response is available: `raise_for_status` first, then
`res.json()['data']['imageUrl']` (raising `KeyError` on a missing key),
then `st.image(image_url, …)`. -/
def generate_star_chart (res : HttpResp AstroBody) : ChartOutcome :=
  if raises_for_status res.status_code then .httpFailure res.status_code
  else
    match res.body.data_field with
    | none => .malformedResponse
    | some u =>
        match u with
        | none => .malformedResponse
        | some url => .image url

/-- How the moon-phase handler (lines 391–402) ends: the `except` branch
(only `raise_for_status` can raise once the body decodes), the image, or
the raw-payload dump of line 400. -/
inductive MoonOutcome where
  | raised (status_code : Nat)
  | image (url : String)
  | rawPayload (body : AstroBody)
  deriving Repr, DecidableEq

/-- The Get Moon Phase handler (lines 391–402): `raise_for_status`, then the
guarded membership test `"data" in mp_data and "imageUrl" in mp_data["data"]`
chooses between showing the image and writing the raw payload back. -/
def moon_phase_handler (res : HttpResp AstroBody) : MoonOutcome :=
  if raises_for_status res.status_code then .raised res.status_code
  else
    match res.body.data_field with
    | some (some url) => .image url
    | some none => .rawPayload res.body
    | none => .rawPayload res.body

/-! ## Polar Plot Builder (lines 192–237) -/

/-- One scatter marker: one body of the table, plotted at
`r = relative_au`, `theta = azimuth_deg` (lines 192–200). -/
structure Marker where
  r : Rat
  theta : Rat
  name : String
  deriving Repr, DecidableEq

/-- One reference-ring trace added by the loop on lines 208–217. -/
structure RingTrace where
  radius : Rat
  mode : String
  line_dash : String
  showlegend : Bool
  hover : String
  deriving Repr, DecidableEq

/-- The radial-axis configuration (line 223). -/
structure RadialAxis where
  range_min : Rat
  range_max : Rat
  deriving Repr, DecidableEq

/-- The angular-axis configuration (line 224). -/
structure AngularAxis where
  direction : String
  rotation_deg : Rat
  dtick : Rat
  deriving Repr, DecidableEq

/-- The parts of the plotly figure the claims are about: the scatter
markers, the ring traces, and the polar-axis layout. -/
structure PolarFigure where
  markers : List Marker
  rings : List RingTrace
  radial : RadialAxis
  angular : AngularAxis
  deriving Repr, DecidableEq

/-- A row of the plotted frame: `name`, `azimuth_deg` and the derived
`relative_au` column. -/
structure PlotRow where
  name : String
  relative_au : Rat
  azimuth_deg : Rat
  deriving Repr, DecidableEq

/-- The figure construction (lines 192–237): `px.scatter_polar` plots one
marker per data-frame row at `(r = relative_au, theta = azimuth_deg)`;
the loop on line 208 adds one dotted, legend-free, hover-free ring per
radius in `[1, 5, 10, 20, 30]`; `update_layout` clamps the radial axis to
`[0, zoom]` and sets the angular axis clockwise with rotation 90.  Nothing
filters the data by `zoom`. -/
def build_polar_figure (df : List PlotRow) (zoom : Rat) : PolarFigure :=
  { markers := df.map (fun row => { r := row.relative_au, theta := row.azimuth_deg, name := row.name })
    rings := [(1 : Rat), 5, 10, 20, 30].map (fun radius =>
      { radius := radius, mode := "lines", line_dash := "dot",
        showlegend := false, hover := "none" })
    radial := { range_min := 0, range_max := zoom }
    angular := { direction := "clockwise", rotation_deg := 90, dtick := 45 } }

/-! ## Session-state update on location submit (lines 268–275) -/

/-- The session-state fields touched by the location form (lines 250–255). -/
structure SessionState where
  latitude : Rat
  longitude : Rat
  selected_place_id : Option String
  deriving Repr, DecidableEq

/-- The suggestion-selected branch of the submit handler (lines 269–275):
`selected_place_id` is stored, then `get_place_details` is consulted and
the coordinate fields are overwritten only when both returned values are
not `None`. -/
def handle_selected_place (st : SessionState) (place_id : String)
    (details : Option Rat × Option Rat) : SessionState :=
  let st1 := { st with selected_place_id := some place_id }
  match details with
  | (some lat, some lng) => { st1 with latitude := lat, longitude := lng }
  | _ => st1

/-! ## Helper lemmas -/

/-- Computing the absolute-difference column and then overwriting the rows
named `subject` is the same as one pass with a per-row conditional. -/
lemma overwrite_abs_eq (df : List PlanetRecord) (subject : String) (c : Rat) :
    overwrite_center df subject (abs_diff_col df c) =
      df.map (fun r => if r.name = subject then 0 else |r.dist_au - c|) := by
  induction df with
  | nil => rfl
  | cons a l ih =>
      simp only [overwrite_center, abs_diff_col, List.map_cons, List.zip_cons_cons] at *
      rw [ih]

/-- When body names are unique in the table, any member named `center` is the
row that `find?` locates. -/
lemma find_name_unique (center : String) (r s : PlanetRecord)
    (hname : s.name = center) :
    ∀ df : List PlanetRecord, (df.map (fun x => x.name)).Nodup →
      df.find? (fun x => x.name = center) = some r → s ∈ df → s = r := by
  intro df
  induction df with
  | nil => intro _ _ hs; cases hs
  | cons a l ih =>
      intro hnodup hfind hs
      have hnd : a.name ∉ l.map (fun x => x.name) ∧
          (l.map (fun x => x.name)).Nodup := by
        simpa [List.nodup_cons] using hnodup
      rcases List.mem_cons.mp hs with rfl | hs'
      · rw [List.find?_cons_of_pos _ (by simp [hname])] at hfind
        exact Option.some.inj hfind
      · by_cases ha : a.name = center
        · exact absurd (by rw [ha, ← hname]; exact List.mem_map_of_mem _ hs') hnd.1
        · rw [List.find?_cons_of_neg _ (by simp [ha])] at hfind
          exact ih hnd.2 hfind hs'

/-! ## Claims -/

/-- C1: for every position table with at least one row, unique body names
(names are unique within one table, per the data model) and a center name
present in the table, the derived `relative_au` column equals
`|dist_au[i] - dist_au[center]|` at every row, the center row's entry is
exactly 0, and every entry is non-negative. -/
theorem C1_relative_distance (df : List PlanetRecord) (center : String)
    (hne : df ≠ []) (hnodup : (df.map (fun r => r.name)).Nodup)
    (hmem : center ∈ df.map (fun r => r.name)) :
    ∃ c, subject_au df center = some c ∧
      relative_au df center = some (df.map (fun r => |r.dist_au - c|)) ∧
      (∀ r ∈ df, r.name = center → |r.dist_au - c| = 0) ∧
      (∀ x ∈ df.map (fun r => |r.dist_au - c|), 0 ≤ x) := by
  obtain ⟨s, hs, hsname⟩ := List.mem_map.mp hmem
  have hex : (df.find? (fun x => x.name = center)).isSome := by
    rw [List.find?_isSome]
    exact ⟨s, hs, by simp [hsname]⟩
  obtain ⟨rc, hrc⟩ := Option.isSome_iff_exists.mp hex
  have hrcname : rc.name = center := by simpa using List.find?_some hrc
  refine ⟨rc.dist_au, ?_, ?_, ?_, ?_⟩
  · simp [subject_au, hrc]
  · simp only [relative_au, subject_au, hrc, Option.map_some']
    rw [overwrite_abs_eq]
    congr 1
    apply List.map_congr_left
    intro x hx
    by_cases hxc : x.name = center
    · have hxr : x = rc := find_name_unique center rc x hxc df hnodup hrc hx
      simp [hxc, hxr]
    · simp [hxc]
  · intro r hr hrname
    have hxr : r = rc := find_name_unique center rc r hrname df hnodup hrc hr
    simp [hxr]
  · intro x hx
    obtain ⟨r, _, rfl⟩ := List.mem_map.mp hx
    exact abs_nonneg _

/-- Witness for C1 at the spec's own example table: Earth at 1 AU and Mars
at 1.52 AU with center Earth. -/
theorem C1_relative_distance_witness :
    ∃ c,
      subject_au
        [{ name := "Earth", date := "d", dist_au := 1, dist_km := 149597871,
           altitude_deg := 10, azimuth_deg := 20 },
         { name := "Mars", date := "d", dist_au := 38/25, dist_km := 227000000,
           altitude_deg := 30, azimuth_deg := 40 }] "Earth" = some c ∧
      relative_au
        [{ name := "Earth", date := "d", dist_au := 1, dist_km := 149597871,
           altitude_deg := 10, azimuth_deg := 20 },
         { name := "Mars", date := "d", dist_au := 38/25, dist_km := 227000000,
           altitude_deg := 30, azimuth_deg := 40 }] "Earth" =
        some
          (([{ name := "Earth", date := "d", dist_au := 1, dist_km := 149597871,
               altitude_deg := 10, azimuth_deg := 20 },
             { name := "Mars", date := "d", dist_au := 38/25, dist_km := 227000000,
               altitude_deg := 30, azimuth_deg := 40 }] :
              List PlanetRecord).map (fun r => |r.dist_au - c|)) ∧
      (∀ r ∈ ([{ name := "Earth", date := "d", dist_au := 1, dist_km := 149597871,
                 altitude_deg := 10, azimuth_deg := 20 },
               { name := "Mars", date := "d", dist_au := 38/25, dist_km := 227000000,
                 altitude_deg := 30, azimuth_deg := 40 }] : List PlanetRecord),
        r.name = "Earth" → |r.dist_au - c| = 0) ∧
      (∀ x ∈ (([{ name := "Earth", date := "d", dist_au := 1, dist_km := 149597871,
                  altitude_deg := 10, azimuth_deg := 20 },
                { name := "Mars", date := "d", dist_au := 38/25, dist_km := 227000000,
                  altitude_deg := 30, azimuth_deg := 40 }] :
                 List PlanetRecord).map (fun r => |r.dist_au - c|)), 0 ≤ x) :=
  C1_relative_distance _ "Earth" (by decide) (by decide) (by decide)

/-- C2: for every valid (format, moonStyle, backgroundStyle) combination,
the built moon-phase payload carries `backgroundColor` iff the background
style is "solid". -/
theorem C2_backgroundColor_iff_solid
    (format moonStyle backgroundStyle picked : String) (obs : Observer)
    (orient : String)
    (hf : format ∈ ["png", "svg"])
    (hm : moonStyle ∈ ["default", "sketch", "shaded"])
    (hb : backgroundStyle ∈ ["stars", "solid"]) :
    ((build_mp_payload format moonStyle backgroundStyle picked obs
        orient).style.backgroundColor).isSome ↔ backgroundStyle = "solid" := by
  unfold build_mp_payload mp_backgroundColor
  by_cases h : backgroundStyle = "solid" <;> simp [h]

/-- Witness for C2 at a concrete valid combination. -/
theorem C2_backgroundColor_iff_solid_witness :
    ((build_mp_payload "png" "default" "solid" "#000000"
        { latitude := 0, longitude := 0, date := "2024-01-01" }
        "north-up").style.backgroundColor).isSome ↔ "solid" = "solid" :=
  C2_backgroundColor_iff_solid "png" "default" "solid" "#000000"
    { latitude := 0, longitude := 0, date := "2024-01-01" } "north-up"
    (by decide) (by decide) (by decide)

/-- C3 counterexample: a network exception raised by the un-guarded
`requests.get` of `get_lati_longi` propagates to the caller instead of
yielding the zero coordinate, so the fallback does not return (0.0, 0.0)
on *any* failure. -/
theorem C3_counterexample :
    get_lati_longi (Except.error { msg := "connection timeout" }) =
        Except.error (PyErr.net { msg := "connection timeout" }) ∧
    get_lati_longi (Except.error { msg := "connection timeout" }) ≠
        Except.ok ((0 : Rat), (0 : Rat)) := by
  constructor
  · rfl
  · intro h
    exact Except.noConfusion h

/-- C3 amended: `get_lati_longi` returns the zero coordinate (0.0, 0.0) on
every *response-level* failure — a non-200 status, a non-"OK" provider
status, or an empty results list — and on a 200/"OK" response with a
non-empty results list returns the first result's geometry location; but an
exception raised by the HTTP call itself propagates to the caller. -/
theorem C3_geocode_fallback_amended :
    (∀ e : NetErr, get_lati_longi (Except.error e) = Except.error (PyErr.net e)) ∧
    (∀ res : HttpResp GeoBody, res.status_code ≠ 200 →
      get_lati_longi (Except.ok res) = Except.ok (0, 0)) ∧
    (∀ res : HttpResp GeoBody, ∀ s : String, res.status_code = 200 →
      res.body.status = some s → s ≠ "OK" →
      get_lati_longi (Except.ok res) = Except.ok (0, 0)) ∧
    (∀ res : HttpResp GeoBody, res.status_code = 200 →
      res.body.status = some "OK" → res.body.results = [] →
      get_lati_longi (Except.ok res) = Except.ok (0, 0)) ∧
    (∀ res : HttpResp GeoBody, ∀ r : GeoResult, ∀ rest : List GeoResult,
      res.status_code = 200 → res.body.status = some "OK" →
      res.body.results = r :: rest →
      get_lati_longi (Except.ok res) = Except.ok (r.lat, r.lng)) := by
  refine ⟨fun e => rfl, ?_, ?_, ?_, ?_⟩
  · intro res h
    simp [get_lati_longi, h]
  · intro res s h200 hst hs
    simp [get_lati_longi, h200, hst, hs]
  · intro res h200 hst hres
    simp [get_lati_longi, h200, hst, hres]
  · intro res r rest h200 hst hres
    simp [get_lati_longi, h200, hst, hres]

/-- Witness for the amended C3: a 200/"OK" geocode response with one result
resolves to that result's location. -/
theorem C3_geocode_fallback_amended_witness :
    get_lati_longi
        (Except.ok
          { status_code := 200,
            body := { status := some "OK",
                      results := [{ lat := 13521/10000, lng := 1038198/10000 }] } }) =
      Except.ok ((13521/10000 : Rat), (1038198/10000 : Rat)) :=
  C3_geocode_fallback_amended.2.2.2.2
    { status_code := 200,
      body := { status := some "OK",
                results := [{ lat := 13521/10000, lng := 1038198/10000 }] } }
    { lat := 13521/10000, lng := 1038198/10000 } [] rfl rfl rfl

/-- C4 counterexample: a network exception raised by the un-guarded
`requests.get` of `get_place_suggestions` propagates to the caller on a
non-empty query, so the helper does not "never raise". -/
theorem C4_counterexample :
    get_place_suggestions (Except.error { msg := "connection timeout" }) "Sing" =
        Except.error (PyErr.net { msg := "connection timeout" }) ∧
    get_place_suggestions (Except.error { msg := "connection timeout" }) "Sing" ≠
        Except.ok [] := by
  constructor
  · rfl
  · intro h
    exact Except.noConfusion h

/-- C4 amended: `get_place_suggestions` returns the empty list on empty
input, on a non-200 HTTP status and on a non-"OK" provider status, and on a
200/"OK" response with a predictions list returns exactly one
(description, place_id) pair per prediction in order; but an exception
raised by the HTTP call itself propagates to the caller. -/
theorem C4_suggest_amended :
    (∀ call : Except NetErr (HttpResp AutoBody),
      get_place_suggestions call "" = Except.ok []) ∧
    (∀ e : NetErr, ∀ q : String, q ≠ "" →
      get_place_suggestions (Except.error e) q = Except.error (PyErr.net e)) ∧
    (∀ res : HttpResp AutoBody, ∀ q : String, q ≠ "" → res.status_code ≠ 200 →
      get_place_suggestions (Except.ok res) q = Except.ok []) ∧
    (∀ res : HttpResp AutoBody, ∀ q : String, q ≠ "" → res.status_code = 200 →
      res.body.status ≠ some "OK" →
      get_place_suggestions (Except.ok res) q = Except.ok []) ∧
    (∀ res : HttpResp AutoBody, ∀ q : String, ∀ ps : List Prediction,
      q ≠ "" → res.status_code = 200 → res.body.status = some "OK" →
      res.body.predictions = some ps →
      get_place_suggestions (Except.ok res) q =
        Except.ok (ps.map (fun p => (p.description, p.place_id)))) := by
  refine ⟨?_, ?_, ?_, ?_, ?_⟩
  · intro call; simp [get_place_suggestions]
  · intro e q hq; simp [get_place_suggestions, hq]
  · intro res q hq h200; simp [get_place_suggestions, hq, h200]
  · intro res q hq h200 hst
    simp [get_place_suggestions, hq, h200, hst]
  · intro res q ps hq h200 hst hps
    simp [get_place_suggestions, hq, h200, hst, hps]

/-- Witness for the amended C4, at the spec's own example: provider status
"OK" with predictions `[{description: "Singapore", place_id: "p1"}]` and
query "Sing" yields `[("Singapore", "p1")]`. -/
theorem C4_suggest_amended_witness :
    get_place_suggestions
        (Except.ok
          { status_code := 200,
            body := { status := some "OK",
                      predictions :=
                        some [{ description := "Singapore", place_id := "p1" }] } })
        "Sing" =
      Except.ok
        (([{ description := "Singapore", place_id := "p1" }] :
            List Prediction).map (fun p => (p.description, p.place_id))) :=
  C4_suggest_amended.2.2.2.2
    { status_code := 200,
      body := { status := some "OK",
                predictions := some [{ description := "Singapore", place_id := "p1" }] } }
    "Sing" [{ description := "Singapore", place_id := "p1" }]
    (by decide) rfl rfl rfl

/-- C5 counterexample: `raise_for_status` raises only for status codes in
[400, 600), so a final 304 (non-2xx) response does not signal an HTTP
failure carrying 304 — the handler falls through to body parsing and, with
`data.imageUrl` absent, signals the malformed-response failure instead. -/
theorem C5_counterexample :
    generate_star_chart { status_code := 304, body := { data_field := none } } =
        ChartOutcome.malformedResponse ∧
    generate_star_chart { status_code := 304, body := { data_field := none } } ≠
        ChartOutcome.httpFailure 304 := by
  constructor
  · rfl
  · decide

/-- C5 amended: the star-chart handler signals an HTTP failure carrying the
status code whenever the response status is 4xx or 5xx (the statuses
`raise_for_status` raises for) and renders no image there; on a 2xx
response whose body lacks `data.imageUrl` it signals the malformed-response
failure; on a 2xx response carrying `data.imageUrl` it yields exactly that
URL. -/
theorem C5_star_chart_amended :
    (∀ res : HttpResp AstroBody, 400 ≤ res.status_code → res.status_code < 600 →
      generate_star_chart res = ChartOutcome.httpFailure res.status_code) ∧
    (∀ res : HttpResp AstroBody, 200 ≤ res.status_code → res.status_code < 300 →
      res.body.imageUrl = none →
      generate_star_chart res = ChartOutcome.malformedResponse) ∧
    (∀ res : HttpResp AstroBody, ∀ url : String,
      200 ≤ res.status_code → res.status_code < 300 →
      res.body.imageUrl = some url →
      generate_star_chart res = ChartOutcome.image url) := by
  refine ⟨?_, ?_, ?_⟩
  · intro res h1 h2
    simp [generate_star_chart, raises_for_status, h1, h2]
  · intro res h1 h2 hurl
    have hnr : ¬ raises_for_status res.status_code := by
      unfold raises_for_status; omega
    unfold generate_star_chart
    rw [if_neg hnr]
    unfold AstroBody.imageUrl at hurl
    match hd : res.body.data_field with
    | none => rfl
    | some none => rfl
    | some (some u) => rw [hd] at hurl; cases hurl
  · intro res url h1 h2 hurl
    have hnr : ¬ raises_for_status res.status_code := by
      unfold raises_for_status; omega
    unfold generate_star_chart
    rw [if_neg hnr]
    unfold AstroBody.imageUrl at hurl
    match hd : res.body.data_field with
    | none => rw [hd] at hurl; cases hurl
    | some none => rw [hd] at hurl; cases hurl
    | some (some u) => rw [hd] at hurl; rw [Option.some.inj hurl]

/-- Witness for the amended C5: an HTTP 500 response signals the failure
carrying 500 (the spec's own example). -/
theorem C5_star_chart_amended_witness :
    generate_star_chart { status_code := 500, body := { data_field := none } } =
      ChartOutcome.httpFailure 500 :=
  C5_star_chart_amended.1 { status_code := 500, body := { data_field := none } }
    (by decide) (by decide)

/-- C6: `get_place_details` signals an HTTP error carrying the status code
(and yields no coordinate) on a non-200 response, signals a provider-status
error (and yields no coordinate) on a 200 response whose payload status is
not "OK", and on a 200/"OK" response returns the payload's geometry
location with no error signal. -/
theorem C6_place_details :
    (∀ res : HttpResp DetailsBody, res.status_code ≠ 200 →
      get_place_details res = ((none, none), DetailsSignal.httpError res.status_code)) ∧
    (∀ res : HttpResp DetailsBody, res.status_code = 200 →
      res.body.status ≠ some "OK" →
      get_place_details res = ((none, none), DetailsSignal.placeDetailsError res.body.status)) ∧
    (∀ res : HttpResp DetailsBody, res.status_code = 200 →
      res.body.status = some "OK" →
      get_place_details res =
        ((some res.body.location.lat, some res.body.location.lng),
          DetailsSignal.noSignal)) := by
  refine ⟨?_, ?_, ?_⟩
  · intro res h; simp [get_place_details, h]
  · intro res h200 hst; simp [get_place_details, h200, hst]
  · intro res h200 hst; simp [get_place_details, h200, hst]

/-- Witness for C6 at the spec's own example: provider status
"ZERO_RESULTS" on a 200 response yields no coordinate and the
provider-status signal. -/
theorem C6_place_details_witness :
    get_place_details
        { status_code := 200,
          body := { status := some "ZERO_RESULTS", location := { lat := 7, lng := 8 } } } =
      ((none, none), DetailsSignal.placeDetailsError (some "ZERO_RESULTS")) :=
  C6_place_details.2.1
    { status_code := 200,
      body := { status := some "ZERO_RESULTS", location := { lat := 7, lng := 8 } } }
    rfl (by decide)

/-- C7: when the moon-phase HTTP call succeeds (2xx) and the body lacks
`data.imageUrl`, the handler surfaces the raw payload instead of raising;
and it raises with the HTTP status only when the status is not 2xx. -/
theorem C7_moon_phase_degradation :
    (∀ res : HttpResp AstroBody, 200 ≤ res.status_code → res.status_code < 300 →
      res.body.imageUrl = none →
      moon_phase_handler res = MoonOutcome.rawPayload res.body) ∧
    (∀ res : HttpResp AstroBody, ∀ s : Nat,
      moon_phase_handler res = MoonOutcome.raised s →
      ¬ (200 ≤ res.status_code ∧ res.status_code < 300) ∧ s = res.status_code) := by
  constructor
  · intro res h1 h2 hurl
    have hnr : ¬ raises_for_status res.status_code := by
      unfold raises_for_status; omega
    unfold moon_phase_handler
    rw [if_neg hnr]
    unfold AstroBody.imageUrl at hurl
    match hd : res.body.data_field with
    | none => rfl
    | some none => rfl
    | some (some u) => rw [hd] at hurl; cases hurl
  · intro res s h
    unfold moon_phase_handler at h
    by_cases hr : raises_for_status res.status_code
    · rw [if_pos hr] at h
      have hs : s = res.status_code := by
        cases h; rfl
      have : ¬ (200 ≤ res.status_code ∧ res.status_code < 300) := by
        unfold raises_for_status at hr; omega
      exact ⟨this, hs⟩
    · rw [if_neg hr] at h
      exfalso
      match hd : res.body.data_field with
      | none => rw [hd] at h; cases h
      | some none => rw [hd] at h; cases h
      | some (some u) => rw [hd] at h; cases h

/-- Witness for C7: a 200 response whose body has a `data` object without
`imageUrl` is surfaced as the raw payload. -/
theorem C7_moon_phase_degradation_witness :
    moon_phase_handler { status_code := 200, body := { data_field := some none } } =
      MoonOutcome.rawPayload { data_field := some none } :=
  C7_moon_phase_degradation.1
    { status_code := 200, body := { data_field := some none } }
    (by decide) (by decide) rfl

/-- C8: the polar figure has one marker per body at
`(r = relative_au, theta = azimuth_deg)`, rings at exactly the radii
[1, 5, 10, 20, 30] rendered dotted without legend or hover, the radial
axis clamped to `[0, zoom]`, the angular axis clockwise and rotated 90°,
and rows beyond `zoom` stay in the marker data (clipping happens only
through the axis range, never by filtering). -/
theorem C8_polar_figure (df : List PlotRow) (zoom : Rat) :
    (build_polar_figure df zoom).markers =
      df.map (fun row =>
        { r := row.relative_au, theta := row.azimuth_deg, name := row.name }) ∧
    (build_polar_figure df zoom).rings.map (fun t => t.radius) =
      [1, 5, 10, 20, 30] ∧
    (∀ t ∈ (build_polar_figure df zoom).rings,
      t.line_dash = "dot" ∧ t.showlegend = false ∧ t.hover = "none") ∧
    (build_polar_figure df zoom).radial = { range_min := 0, range_max := zoom } ∧
    (build_polar_figure df zoom).angular.direction = "clockwise" ∧
    (build_polar_figure df zoom).angular.rotation_deg = 90 ∧
    (∀ row ∈ df,
      ({ r := row.relative_au, theta := row.azimuth_deg, name := row.name } : Marker) ∈
        (build_polar_figure df zoom).markers) := by
  refine ⟨rfl, by simp [build_polar_figure], ?_, rfl, rfl, rfl, ?_⟩
  · intro t ht
    simp only [build_polar_figure, List.mem_map] at ht
    obtain ⟨rad, _, rfl⟩ := ht
    exact ⟨rfl, rfl, rfl⟩
  · intro row hrow
    simp only [build_polar_figure, List.mem_map]
    exact ⟨row, hrow, rfl⟩

/-- Witness for C8: a body at relative distance 31 AU stays in the marker
data of a figure zoomed to 10 AU. -/
theorem C8_polar_figure_witness :
    ({ r := 31, theta := 135, name := "Pluto" } : Marker) ∈
      (build_polar_figure [{ name := "Pluto", relative_au := 31, azimuth_deg := 135 }] 10).markers :=
  (C8_polar_figure [{ name := "Pluto", relative_au := 31, azimuth_deg := 135 }] 10).2.2.2.2.2.2
    { name := "Pluto", relative_au := 31, azimuth_deg := 135 } (List.mem_singleton.mpr rfl)

/-- C9: when every payload row carries at least one cell, the transform
yields one record per row in the provider's order, each record taking the
body name from `entry.name` and the date, AU/km distances and
altitude/azimuth degrees from the row's first cell; and the extraction of a
row never looks past the first cell, so additional cells are ignored. -/
theorem C9_single_snapshot (rows : List PosRow)
    (h : ∀ row ∈ rows, row.cells ≠ []) :
    (∃ recs, transform_positions rows = some recs ∧
      List.Forall₂ (fun (row : PosRow) (rec : PlanetRecord) =>
        ∃ c rest, row.cells = c :: rest ∧
          rec = { name := row.entry_name, date := c.date, dist_au := c.dist_au,
                  dist_km := c.dist_km, altitude_deg := c.altitude_deg,
                  azimuth_deg := c.azimuth_deg }) rows recs ∧
      recs.length = rows.length) ∧
    (∀ (n : String) (c : PosCell) (r1 r2 : List PosCell),
      extract_row { entry_name := n, cells := c :: r1 } =
        extract_row { entry_name := n, cells := c :: r2 }) := by
  constructor
  · induction rows with
    | nil => exact ⟨[], rfl, List.Forall₂.nil, rfl⟩
    | cons a l ih =>
        have ha : a.cells ≠ [] := h a (List.mem_cons_self a l)
        obtain ⟨c, rest, hc⟩ := List.exists_cons_of_ne_nil ha
        obtain ⟨recs, hrecs, hall, hlen⟩ :=
          ih (fun row hrow => h row (List.mem_cons_of_mem a hrow))
        refine ⟨{ name := a.entry_name, date := c.date, dist_au := c.dist_au,
                  dist_km := c.dist_km, altitude_deg := c.altitude_deg,
                  azimuth_deg := c.azimuth_deg } :: recs, ?_, ?_, ?_⟩
        · simp [transform_positions, extract_row, hc, hrecs]
        · exact List.Forall₂.cons ⟨c, rest, hc, rfl⟩ hall
        · simp [hlen]
  · intro n c r1 r2
    rfl

/-- Witness for C9: a row with two cells produces one record built from the
first cell only. -/
theorem C9_single_snapshot_witness :
    (∃ recs,
      transform_positions
          [{ entry_name := "Mars",
             cells := [{ date := "2024-01-01", dist_au := 38/25, dist_km := 227000000,
                         altitude_deg := 30, azimuth_deg := 40 },
                       { date := "2024-01-02", dist_au := 2, dist_km := 300000000,
                         altitude_deg := 31, azimuth_deg := 41 }] }] = some recs ∧
      List.Forall₂ (fun (row : PosRow) (rec : PlanetRecord) =>
        ∃ c rest, row.cells = c :: rest ∧
          rec = { name := row.entry_name, date := c.date, dist_au := c.dist_au,
                  dist_km := c.dist_km, altitude_deg := c.altitude_deg,
                  azimuth_deg := c.azimuth_deg })
        [{ entry_name := "Mars",
           cells := [{ date := "2024-01-01", dist_au := 38/25, dist_km := 227000000,
                       altitude_deg := 30, azimuth_deg := 40 },
                     { date := "2024-01-02", dist_au := 2, dist_km := 300000000,
                       altitude_deg := 31, azimuth_deg := 41 }] }] recs ∧
      recs.length =
        ([{ entry_name := "Mars",
            cells := [{ date := "2024-01-01", dist_au := 38/25, dist_km := 227000000,
                        altitude_deg := 30, azimuth_deg := 40 },
                      { date := "2024-01-02", dist_au := 2, dist_km := 300000000,
                        altitude_deg := 31, azimuth_deg := 41 }] }] :
           List PosRow).length) ∧
    (∀ (n : String) (c : PosCell) (r1 r2 : List PosCell),
      extract_row { entry_name := n, cells := c :: r1 } =
        extract_row { entry_name := n, cells := c :: r2 }) :=
  C9_single_snapshot _ (by simp)

/-- C10: storing a selected place updates only `selected_place_id` when
`get_place_details` yields no coordinate pair — the latitude and longitude
retain their previous values — and in general the coordinate fields are
left untouched unless both returned values are non-None. -/
theorem C10_retain_coordinates (st : SessionState) (pid : String) :
    (∀ res : HttpResp DetailsBody,
      (get_place_details res).1 = (none, none) →
      handle_selected_place st pid (get_place_details res).1 =
        { st with selected_place_id := some pid }) ∧
    (∀ details : Option Rat × Option Rat,
      details.1 = none ∨ details.2 = none →
      (handle_selected_place st pid details).latitude = st.latitude ∧
      (handle_selected_place st pid details).longitude = st.longitude) := by
  constructor
  · intro res hres
    rw [hres]
    rfl
  · intro details hd
    rcases details with ⟨d1, d2⟩
    rcases d1 with _ | a <;> rcases d2 with _ | b
    · exact ⟨rfl, rfl⟩
    · exact ⟨rfl, rfl⟩
    · exact ⟨rfl, rfl⟩
    · rcases hd with hd | hd <;> exact absurd hd (by simp)

/-- Witness for C10: a place-details failure (HTTP 404, yielding
`(None, None)`) leaves the stored coordinates untouched and records the
selected place id. -/
theorem C10_retain_coordinates_witness :
    handle_selected_place
        { latitude := 13521/10000, longitude := 1038198/10000, selected_place_id := none }
        "p1"
        (get_place_details
          { status_code := 404,
            body := { status := some "OK", location := { lat := 1, lng := 2 } } }).1 =
      { latitude := 13521/10000, longitude := 1038198/10000,
        selected_place_id := some "p1" } :=
  (C10_retain_coordinates
      { latitude := 13521/10000, longitude := 1038198/10000, selected_place_id := none }
      "p1").1
    { status_code := 404,
      body := { status := some "OK", location := { lat := 1, lng := 2 } } }
    (by decide)

end Constellation
